import Mathlib

/-!
# Donut exchange: verification of the ledger, book snapshot and outlet repository

Shallow embedding of the TypeScript backend of the donut-exchange simulation:

* `ExchangeService` (sales ledger: inventory cache, balances, sales stats,
  `sellToCustomer`, `createOrder`, `getLeaderboard`, `getAllOutlets`),
* `OrderRepository.getOrderBook` (order-book snapshot),
* `OutletRepository` (`create`, `findById`, `findAll`).

JavaScript numbers are modelled as exact rationals (`ℚ`); timestamps as `Int`
(epoch milliseconds).  Persistence to the durable store is write-through from
the in-memory caches, which the source treats as the authority for reads
(write failures are retried and never rolled back), so state is modelled as
the in-memory view.  Environmental values (`Date.now()`, `Math.random()`-based
identifiers) are irrelevant to every property below and are modelled as fixed
constants or explicit parameters.
-/

namespace DonutExchange

/-- Order lifecycle status, from `models/types.js` (spec §3). -/
inductive OrderStatus
  | ACTIVE
  | PARTIALLY_FILLED
  | FILLED
  | CANCELLED
  deriving DecidableEq, Repr

/-- An exchange participant, as read back from `OutletRepository`. -/
structure Outlet where
  outletId : String
  outletName : String
  location : String
  balance : ℚ
  marginPercent : ℚ
  isOpen : Bool
  createdAt : Int
  deriving DecidableEq, Repr

/-- Per-outlet sales statistics cache (`OutletSalesStats` in `ExchangeService`). -/
structure OutletSalesStats where
  customerSalesRevenue : ℚ
  customerSalesCount : Nat
  exchangeSalesRevenue : ℚ
  exchangeSalesCount : Nat
  deriving DecidableEq, Repr

/-- A retail customer sale record (`CustomerSale` in `models/types.js`). -/
structure CustomerSale where
  saleId : String
  outletId : String
  donutTypeId : String
  quantity : ℚ
  costBasis : ℚ
  revenue : ℚ
  profit : ℚ
  executedAt : Int
  deriving DecidableEq, Repr

/-- The in-memory state that `ExchangeService` reads and writes during retail
operations: the outlet repository view, the inventory cache
(`inventoryCache`, absent cells read as `0`), and the sales-stats cache
(`salesStatsCache`, absent entries read as all-zero via `getOrCreateStats`). -/
structure ExchangeState where
  outlets : String → Option Outlet
  inventory : String → String → ℚ
  stats : String → OutletSalesStats

/-- `ExchangeService.getInventoryFromCache`: a missing outlet map or a missing
cell reads as `0`, which the total function `inventory` already encodes. -/
def getInventoryFromCache (s : ExchangeState) (outletId donutTypeId : String) : ℚ :=
  s.inventory outletId donutTypeId

/-- `ExchangeService.updateCache`: point update of one inventory cell. -/
def updateCache (s : ExchangeState) (outletId donutTypeId : String) (quantity : ℚ) :
    ExchangeState :=
  { s with
    inventory := fun o d =>
      if o = outletId ∧ d = donutTypeId then quantity else s.inventory o d }

/-- `ExchangeService.addInventory`: credit a cell by `quantity` (the DB write
is write-through and never rolls the cache back). -/
def addInventory (s : ExchangeState) (outletId donutTypeId : String) (quantity : ℚ) :
    ExchangeState :=
  updateCache s outletId donutTypeId (getInventoryFromCache s outletId donutTypeId + quantity)

/-- `ExchangeService.removeInventory`: debit a cell by `quantity`; refused
(returning `false`, state untouched) when the cell holds less than `quantity`. -/
def removeInventory (s : ExchangeState) (outletId donutTypeId : String) (quantity : ℚ) :
    Bool × ExchangeState :=
  let current := getInventoryFromCache s outletId donutTypeId
  if current < quantity then (false, s)
  else (true, updateCache s outletId donutTypeId (current - quantity))

/-- The trade-executed subscription in `ExchangeService.start`: credit the
seller's exchange-sales stats and add the traded quantity to the buyer's
inventory. -/
def handleTradeExecuted (s : ExchangeState) (sellerOutletId buyerOutletId donutTypeId : String)
    (quantity totalAmount : ℚ) : ExchangeState :=
  let st := s.stats sellerOutletId
  let s1 := { s with
    stats := fun o =>
      if o = sellerOutletId then
        { st with
          exchangeSalesRevenue := st.exchangeSalesRevenue + totalAmount,
          exchangeSalesCount := st.exchangeSalesCount + 1 }
      else s.stats o }
  addInventory s1 buyerOutletId donutTypeId quantity

/-- `ExchangeService.sellToCustomer`.  Mirrors the source line by line:
look up the outlet (absent → throw), compare the cached inventory with the
requested quantity (shortfall → throw), debit inventory, compute
`costBasis = 2.0 * quantity`, `revenue = costBasis * (1 + marginPercent/100)`,
`profit = revenue - costBasis`, credit the outlet balance with the revenue,
bump the customer-sales stats, and return the sale record.  A thrown error is
modelled as `Except.error` paired with the unchanged state.  `saleId` and
`executedAt` come from `Date.now()`/`Math.random()` and are modelled as fixed
values; no property below depends on them. -/
def sellToCustomer (s : ExchangeState) (outletId donutTypeId : String) (quantity : ℚ) :
    Except String CustomerSale × ExchangeState :=
  match s.outlets outletId with
  | none => (Except.error "Outlet not found", s)
  | some outlet =>
    let available := getInventoryFromCache s outletId donutTypeId
    if available < quantity then
      (Except.error "Insufficient inventory", s)
    else
      let s1 := (removeInventory s outletId donutTypeId quantity).2
      let costBasis := 2 * quantity
      let revenue := costBasis * (1 + outlet.marginPercent / 100)
      let profit := revenue - costBasis
      let s2 := { s1 with
        outlets := fun o =>
          if o = outletId then some { outlet with balance := outlet.balance + revenue }
          else s1.outlets o }
      let st := s2.stats outletId
      let s3 := { s2 with
        stats := fun o =>
          if o = outletId then
            { st with
              customerSalesRevenue := st.customerSalesRevenue + revenue,
              customerSalesCount := st.customerSalesCount + 1 }
          else s2.stats o }
      (Except.ok
        { saleId := "sale", outletId := outletId, donutTypeId := donutTypeId,
          quantity := quantity, costBasis := costBasis, revenue := revenue,
          profit := profit, executedAt := 0 }, s3)

/-! ## Order creation (`ExchangeService.createOrder` / `OrderRepository.create`) -/

/-- Order side, from `models/types.js`. -/
inductive OrderSide
  | BUY
  | SELL
  deriving DecidableEq, Repr

/-- A resting or submitted order, from `models/types.js`. -/
structure Order where
  orderId : String
  side : OrderSide
  donutTypeId : String
  quantity : ℚ
  pricePerUnit : ℚ
  status : OrderStatus
  outletId : String
  createdAt : Int
  updatedAt : Int
  deriving DecidableEq, Repr

/-- A tradeable product (`DonutType` in `models/types.js`). -/
structure DonutType where
  donutTypeId : String
  donutTypeName : String
  description : String
  deriving DecidableEq, Repr

/-- The request body of `ExchangeService.createOrder`. -/
structure CreateOrderRequest where
  outletId : String
  donutTypeId : String
  side : OrderSide
  quantity : ℚ
  pricePerUnit : ℚ
  deriving DecidableEq, Repr

/-- The state `createOrder` reads and writes: the outlet and donut-type
repository views and the persisted order list. -/
structure BookState where
  outlets : String → Option Outlet
  donutTypes : String → Option DonutType
  orders : List Order

/-- `ExchangeService.createOrder` together with `OrderRepository.create`:
validate that the outlet exists, validate that the donut type exists, then
insert a new order with status `ACTIVE` (the server-assigned `orderId` and the
wall-clock `now` are explicit parameters).  The subsequent matching step is
run only after the order has been persisted and cannot un-create it, so the
embedding covers the call up to and including creation, which is what the
order-creation properties are about. -/
def createOrder (s : BookState) (request : CreateOrderRequest) (orderId : String) (now : Int) :
    Except String Order × BookState :=
  match s.outlets request.outletId with
  | none => (Except.error "Outlet not found", s)
  | some _ =>
    match s.donutTypes request.donutTypeId with
    | none => (Except.error "Donut type not found", s)
    | some _ =>
      let order : Order :=
        { orderId := orderId, side := request.side, donutTypeId := request.donutTypeId,
          quantity := request.quantity, pricePerUnit := request.pricePerUnit,
          status := OrderStatus.ACTIVE, outletId := request.outletId,
          createdAt := now, updatedAt := now }
      (Except.ok order, { s with orders := s.orders ++ [order] })

/-! ## Order-book snapshot (`OrderRepository.getOrderBook`) -/

/-- One side entry of the order-book snapshot (`OrderBookEntry`). -/
structure OrderBookEntry where
  orderId : String
  outletId : String
  quantity : ℚ
  pricePerUnit : ℚ
  status : OrderStatus
  createdAt : Int
  deriving DecidableEq, Repr

/-- The order-book snapshot (`OrderBook`). -/
structure OrderBook where
  donutTypeId : String
  buyOrders : List OrderBookEntry
  sellOrders : List OrderBookEntry
  deriving DecidableEq, Repr

/-- The `isMatchable` predicate inside `getOrderBook`: `active` and
`partially_filled` orders are the matchable ones. -/
def isMatchable (status : OrderStatus) : Bool :=
  status == OrderStatus.ACTIVE || status == OrderStatus.PARTIALLY_FILLED

/-- The sort applied to each snapshot side:
`arr.sort((a, b) => b.createdAt.getTime() - a.createdAt.getTime())`, i.e. a
stable sort putting larger `createdAt` first (newest first).  JavaScript's
`Array.prototype.sort` is stable, as is `List.mergeSort`. -/
def sortByTimeDesc (entries : List OrderBookEntry) : List OrderBookEntry :=
  entries.mergeSort (fun a b => decide (b.createdAt ≤ a.createdAt))

/-- `OrderRepository.getOrderBook`.  The two store reads (sell side, buy side)
are awaited together (`Promise.all`), so a failure of either lands in the
`catch` branch, which returns an order book with both sides empty instead of
re-raising.  On success each side is filtered to matchable orders unless
`includeAll` is set, then sorted newest-first for display. -/
def getOrderBook (donutTypeId : String) (includeAll : Bool)
    (sellResponse buyResponse : Except String (List OrderBookEntry)) : OrderBook :=
  match sellResponse, buyResponse with
  | Except.ok sellOrders, Except.ok buyOrders =>
    let filteredSellOrders :=
      if includeAll then sellOrders else sellOrders.filter (fun o => isMatchable o.status)
    let filteredBuyOrders :=
      if includeAll then buyOrders else buyOrders.filter (fun o => isMatchable o.status)
    { donutTypeId := donutTypeId,
      buyOrders := sortByTimeDesc filteredBuyOrders,
      sellOrders := sortByTimeDesc filteredSellOrders }
  | _, _ => { donutTypeId := donutTypeId, buyOrders := [], sellOrders := [] }

/-! ## Outlet listings and leaderboard (`ExchangeService`) -/

/-- Leaderboard row (`OutletStats` in `models/types.js`). -/
structure OutletStats where
  outletId : String
  outletName : String
  balance : ℚ
  customerSalesRevenue : ℚ
  customerSalesCount : Nat
  exchangeSalesRevenue : ℚ
  exchangeSalesCount : Nat
  netProfit : ℚ
  averageMargin : ℚ
  deriving DecidableEq, Repr

/-- The row built for one outlet inside `getLeaderboard` (and, identically,
by `getOutletStats`): `netProfit = balance - 10000` (the configured starting
balance). -/
def outletToStats (stats : String → OutletSalesStats) (outlet : Outlet) : OutletStats :=
  let st := stats outlet.outletId
  { outletId := outlet.outletId, outletName := outlet.outletName,
    balance := outlet.balance,
    customerSalesRevenue := st.customerSalesRevenue,
    customerSalesCount := st.customerSalesCount,
    exchangeSalesRevenue := st.exchangeSalesRevenue,
    exchangeSalesCount := st.exchangeSalesCount,
    netProfit := outlet.balance - 10000,
    averageMargin := outlet.marginPercent }

/-- `ExchangeService.getAllOutlets`: all outlets from the repository with the
sentinel `supplier-factory` filtered out. -/
def getAllOutlets (outlets : List Outlet) : List Outlet :=
  outlets.filter (fun o => !(o.outletId == "supplier-factory"))

/-- `ExchangeService.getLeaderboard`: filter out `supplier-factory`, build a
stats row per retail outlet, and sort by `netProfit` descending
(`(a, b) => b.netProfit - a.netProfit`, a stable descending sort). -/
def getLeaderboard (outlets : List Outlet) (stats : String → OutletSalesStats) :
    List OutletStats :=
  let retailOutlets := outlets.filter (fun o => !(o.outletId == "supplier-factory"))
  let leaderboard := retailOutlets.map (outletToStats stats)
  leaderboard.mergeSort (fun a b => decide (b.netProfit ≤ a.netProfit))

/-! ## Outlet repository (`OutletRepository`) -/

/-- The argument of `OutletRepository.create` (`Omit<Outlet, 'createdAt'>`). -/
structure OutletInput where
  outletId : String
  outletName : String
  location : String
  balance : ℚ
  marginPercent : ℚ
  isOpen : Bool
  deriving DecidableEq, Repr

/-- The attribute values the `insert` query of `OutletRepository.create`
writes to the store. -/
structure StoredOutlet where
  outletId : String
  outletName : String
  location : String
  balance : ℚ
  marginPercent : ℚ
  isOpen : Bool
  deriving DecidableEq, Repr

/-- A fetched outlet document as consumed by `findById`/`findAll`; the
`margin-percent` and `outlet-open` attributes may be absent. -/
structure OutletDoc where
  outletId : String
  outletName : String
  location : String
  balance : ℚ
  marginPercent : Option ℚ
  isOpen : Option Bool
  createdAt : Int
  deriving DecidableEq, Repr

/-- JavaScript `x || d` on a number `x`: `0` (and a missing value) is falsy
and replaced by the default. -/
def jsNumOr (x : ℚ) (d : ℚ) : ℚ :=
  if x = 0 then d else x

/-- `doc['margin-percent'] || 25.0` where the attribute may be absent. -/
def jsOptNumOr (x : Option ℚ) (d : ℚ) : ℚ :=
  match x with
  | none => d
  | some v => jsNumOr v d

namespace OutletRepository

/-- `OutletRepository.create`: the insert query stores
`outlet.marginPercent || 25.0` (and `isOpen`, defaulted to `true` when
`undefined` — the typed interface always supplies it), but the function
returns `{ ...outlet, createdAt: new Date() }`, i.e. the caller's input
object with only `createdAt` added.  The pair is (stored record, returned
outlet). -/
def create (input : OutletInput) (now : Int) : StoredOutlet × Outlet :=
  let marginPercent := jsNumOr input.marginPercent 25
  ({ outletId := input.outletId, outletName := input.outletName,
     location := input.location, balance := input.balance,
     marginPercent := marginPercent, isOpen := input.isOpen },
   { outletId := input.outletId, outletName := input.outletName,
     location := input.location, balance := input.balance,
     marginPercent := input.marginPercent, isOpen := input.isOpen,
     createdAt := now })

/-- The row constructed by `OutletRepository.findById` from a fetched
document: `marginPercent` is `doc['margin-percent'] || 25.0`, `isOpen`
defaults to `true` when the attribute is absent. -/
def parseDoc (outletId : String) (doc : OutletDoc) : Outlet :=
  { outletId := outletId, outletName := doc.outletName, location := doc.location,
    balance := doc.balance, marginPercent := jsOptNumOr doc.marginPercent 25,
    isOpen := doc.isOpen.getD true, createdAt := doc.createdAt }

/-- `OutletRepository.findById`: `none` when the query returned no document,
otherwise the parsed row keyed by the requested `outletId`. -/
def findById (outletId : String) (response : Option OutletDoc) : Option Outlet :=
  match response with
  | none => none
  | some doc => some (parseDoc outletId doc)

/-- `OutletRepository.findAll`: map every fetched document through the same
row construction (using the document's own `outlet-id`); a non-document
response yields `[]`. -/
def findAll (response : Option (List OutletDoc)) : List Outlet :=
  match response with
  | none => []
  | some docs => docs.map (fun doc => parseDoc doc.outletId doc)

end OutletRepository

/-! ## Retail-ledger operation sequences

The public operations that touch inventory cells and (through customer
sales) balances: the trade-executed event handler (which credits the buyer's
inventory), `removeInventory`, and `sellToCustomer`. -/

/-- One retail-ledger operation. -/
inductive LedgerOp
  | tradeEvent (sellerOutletId buyerOutletId donutTypeId : String) (quantity totalAmount : ℚ)
  | removeInv (outletId donutTypeId : String) (quantity : ℚ)
  | sell (outletId donutTypeId : String) (quantity : ℚ)

/-- Apply one ledger operation to the exchange state. -/
def applyOp (s : ExchangeState) : LedgerOp → ExchangeState
  | LedgerOp.tradeEvent seller buyer donutTypeId quantity totalAmount =>
    handleTradeExecuted s seller buyer donutTypeId quantity totalAmount
  | LedgerOp.removeInv outletId donutTypeId quantity =>
    (removeInventory s outletId donutTypeId quantity).2
  | LedgerOp.sell outletId donutTypeId quantity =>
    (sellToCustomer s outletId donutTypeId quantity).2

/-- Apply a sequence of ledger operations from left to right. -/
def applyOps (s : ExchangeState) (ops : List LedgerOp) : ExchangeState :=
  ops.foldl applyOp s

/-- The operation's quantity is positive. -/
def opQuantityPos : LedgerOp → Prop
  | LedgerOp.tradeEvent _ _ _ quantity _ => 0 < quantity
  | LedgerOp.removeInv _ _ quantity => 0 < quantity
  | LedgerOp.sell _ _ quantity => 0 < quantity

/-- The ledger sanity invariant: every inventory cell is non-negative, and
every resident outlet has a non-negative balance and a non-negative margin
(spec §3 requires `balance ≥ 0` and `marginPercent` non-negative). -/
def validState (s : ExchangeState) : Prop :=
  (∀ o d, 0 ≤ s.inventory o d) ∧
  (∀ oid outlet, s.outlets oid = some outlet → 0 ≤ outlet.balance ∧ 0 ≤ outlet.marginPercent)

/-! ## Concrete inputs used by witnesses and counterexamples -/

/-- A retail outlet with the default 25% margin (spec scenario 6). -/
def demoOutlet : Outlet :=
  { outletId := "outlet-1", outletName := "Demo Donuts", location := "Main St",
    balance := 10000, marginPercent := 25, isOpen := true, createdAt := 0 }

/-- All-zero sales statistics, as `getOrCreateStats` initialises them. -/
def zeroStats : OutletSalesStats :=
  { customerSalesRevenue := 0, customerSalesCount := 0,
    exchangeSalesRevenue := 0, exchangeSalesCount := 0 }

/-- A state holding `demoOutlet` with an empty inventory. -/
def demoState : ExchangeState :=
  { outlets := fun o => if o = "outlet-1" then some demoOutlet else none,
    inventory := fun _ _ => 0,
    stats := fun _ => zeroStats }

/-- A state holding `demoOutlet` with ten glazed donuts in stock. -/
def stockedState : ExchangeState :=
  { outlets := fun o => if o = "outlet-1" then some demoOutlet else none,
    inventory := fun o d => if o = "outlet-1" ∧ d = "glazed" then 10 else 0,
    stats := fun _ => zeroStats }

/-- A closed outlet (`isOpen = false`). -/
def closedOutlet : Outlet :=
  { outletId := "closed-1", outletName := "Closed Donuts", location := "Side St",
    balance := 10000, marginPercent := 25, isOpen := false, createdAt := 0 }

/-- A product in the catalogue. -/
def glazedType : DonutType :=
  { donutTypeId := "glazed", donutTypeName := "Glazed", description := "classic" }

/-- A book state whose only outlet is closed and whose catalogue has one
product. -/
def closedBookState : BookState :=
  { outlets := fun o => if o = "closed-1" then some closedOutlet else none,
    donutTypes := fun d => if d = "glazed" then some glazedType else none,
    orders := [] }

/-- An order request submitted by the closed outlet. -/
def closedOutletRequest : CreateOrderRequest :=
  { outletId := "closed-1", donutTypeId := "glazed", side := OrderSide.BUY,
    quantity := 5, pricePerUnit := 3 }

/-- An earlier, higher-priced bid. -/
def bidHigh : OrderBookEntry :=
  { orderId := "bid-early-high", outletId := "o1", quantity := 1, pricePerUnit := 10,
    status := OrderStatus.ACTIVE, createdAt := 1 }

/-- A later, lower-priced bid. -/
def bidLow : OrderBookEntry :=
  { orderId := "bid-late-low", outletId := "o2", quantity := 1, pricePerUnit := 5,
    status := OrderStatus.ACTIVE, createdAt := 2 }

/-- An outlet-creation input carrying `marginPercent = 0`. -/
def zeroMarginInput : OutletInput :=
  { outletId := "outlet-z", outletName := "Zero Margin", location := "L",
    balance := 10000, marginPercent := 0, isOpen := true }

/-- A concrete operation sequence with positive quantities: a trade credits
five glazed donuts to `outlet-1`, a customer buys two, one is removed. -/
def demoOps : List LedgerOp :=
  [LedgerOp.tradeEvent "supplier-factory" "outlet-1" "glazed" 5 10,
   LedgerOp.sell "outlet-1" "glazed" 2,
   LedgerOp.removeInv "outlet-1" "glazed" 1]

/-! ## Helper lemmas -/

/-- The snapshot sort is a permutation, so it preserves membership. -/
theorem mem_sortByTimeDesc (l : List OrderBookEntry) (o : OrderBookEntry) :
    o ∈ sortByTimeDesc l ↔ o ∈ l :=
  (List.mergeSort_perm l _).mem_iff

/-- `isMatchable` holds exactly on the two non-terminal statuses. -/
theorem isMatchable_iff (status : OrderStatus) :
    isMatchable status = true ↔
      status = OrderStatus.ACTIVE ∨ status = OrderStatus.PARTIALLY_FILLED := by
  simp [isMatchable]

/-- The snapshot sort orders entries by `createdAt` descending. -/
theorem sortByTimeDesc_sorted (l : List OrderBookEntry) :
    List.Sorted (fun a b : OrderBookEntry => b.createdAt ≤ a.createdAt) (sortByTimeDesc l) := by
  have h := @List.sorted_mergeSort OrderBookEntry
    (fun a b : OrderBookEntry => decide (b.createdAt ≤ a.createdAt))
    (by intro a b c h1 h2; simp at h1 h2 ⊢; omega)
    (by intro a b; simp; omega) l
  refine h.imp ?_
  intro a b hab
  simpa using hab

/-- Adding a non-negative quantity keeps the ledger invariant. -/
theorem validState_addInventory (s : ExchangeState) (outletId donutTypeId : String) (q : ℚ)
    (hs : validState s) (hq : 0 ≤ q) : validState (addInventory s outletId donutTypeId q) := by
  obtain ⟨hinv, hout⟩ := hs
  refine ⟨?_, hout⟩
  intro o d
  simp only [addInventory, updateCache, getInventoryFromCache]
  split
  · have := hinv outletId donutTypeId
    linarith
  · exact hinv o d

/-- The trade-executed handler keeps the ledger invariant: it only bumps the
seller's stats and credits the buyer's inventory. -/
theorem validState_handleTradeExecuted (s : ExchangeState)
    (seller buyer donutTypeId : String) (q amt : ℚ)
    (hs : validState s) (hq : 0 ≤ q) :
    validState (handleTradeExecuted s seller buyer donutTypeId q amt) :=
  validState_addInventory _ buyer donutTypeId q ⟨hs.1, hs.2⟩ hq

/-- `removeInventory` keeps the ledger invariant for any quantity: the
guarded branch only fires when the cell covers the debit. -/
theorem validState_removeInventory (s : ExchangeState) (outletId donutTypeId : String) (q : ℚ)
    (hs : validState s) : validState (removeInventory s outletId donutTypeId q).2 := by
  obtain ⟨hinv, hout⟩ := hs
  simp only [removeInventory, getInventoryFromCache]
  split
  · exact ⟨hinv, hout⟩
  next h =>
    refine ⟨?_, hout⟩
    intro o d
    simp only [updateCache]
    split
    · have := not_lt.mp h
      linarith
    · exact hinv o d

/-- A customer sale with non-negative quantity keeps the ledger invariant:
the inventory guard covers the debit, and the revenue credited to the balance
is non-negative because the margin is. -/
theorem validState_sellToCustomer (s : ExchangeState) (outletId donutTypeId : String) (q : ℚ)
    (hs : validState s) (hq : 0 ≤ q) : validState (sellToCustomer s outletId donutTypeId q).2 := by
  obtain ⟨hinv, hout⟩ := hs
  unfold sellToCustomer
  cases hfind : s.outlets outletId with
  | none => exact ⟨hinv, hout⟩
  | some outlet =>
    simp only [getInventoryFromCache]
    split
    · exact ⟨hinv, hout⟩
    next h =>
      have hmargin : 0 ≤ outlet.marginPercent := (hout outletId outlet hfind).2
      have hbal : 0 ≤ outlet.balance := (hout outletId outlet hfind).1
      constructor
      · intro o d
        simp only [removeInventory, getInventoryFromCache, if_neg h, updateCache]
        split
        · have := not_lt.mp h
          linarith
        · exact hinv o d
      · intro oid o2 h2
        simp only [removeInventory, getInventoryFromCache, if_neg h] at h2
        by_cases heq : oid = outletId
        · subst heq
          simp only [if_pos rfl] at h2
          obtain rfl := Option.some.inj h2
          have hrev : 0 ≤ 2 * q * (1 + outlet.marginPercent / 100) := by positivity
          constructor
          · simpa using by linarith
          · simpa using hmargin
        · simp only [if_neg heq] at h2
          exact hout oid o2 h2

/-- One-step preservation of the ledger invariant. -/
theorem validState_applyOp (s : ExchangeState) (op : LedgerOp)
    (hs : validState s) (hq : opQuantityPos op) : validState (applyOp s op) := by
  cases op with
  | tradeEvent seller buyer d q amt =>
    exact validState_handleTradeExecuted s seller buyer d q amt hs (le_of_lt hq)
  | removeInv o d q =>
    exact validState_removeInventory s o d q hs
  | sell o d q =>
    exact validState_sellToCustomer s o d q hs (le_of_lt hq)

/-- Preservation of the ledger invariant over a whole operation sequence. -/
theorem validState_applyOps (s : ExchangeState) (ops : List LedgerOp)
    (hs : validState s) (hpos : ∀ op ∈ ops, opQuantityPos op) :
    validState (applyOps s ops) := by
  induction ops generalizing s with
  | nil => exact hs
  | cons op rest ih =>
    exact ih (applyOp s op)
      (validState_applyOp s op hs (hpos op (by simp)))
      (fun o ho => hpos o (by simp [ho]))

/-- The demo state satisfies the ledger invariant. -/
theorem demoState_valid : validState demoState := by
  constructor
  · intro o d
    simp [demoState]
  · intro oid outlet h
    simp only [demoState] at h
    split at h
    · obtain rfl := Option.some.inj h
      norm_num [demoOutlet]
    · exact absurd h (by simp)

/-- A parsed outlet row never carries margin zero: `x || 25.0` replaces both
an absent attribute and a stored `0`. -/
theorem parseDoc_margin_ne_zero (outletId : String) (doc : OutletDoc) :
    ((OutletRepository.parseDoc outletId doc).marginPercent == 0) = false := by
  simp only [OutletRepository.parseDoc, jsOptNumOr, jsNumOr]
  cases doc.marginPercent with
  | none => norm_num
  | some m =>
    by_cases hm : m = 0 <;> simp [hm]

/-! ## Claim theorems -/

/-- Claim C1: a customer sale on an existing outlet with sufficient inventory
returns a `CustomerSale` with `costBasis = 2.0 * qty`,
`revenue = costBasis * (1 + marginPercent / 100)` and
`profit = revenue - costBasis`, debits the outlet's inventory cell for the
product by exactly `qty`, and credits the outlet's balance by exactly the
revenue. -/
theorem sellToCustomer_success (s : ExchangeState) (outletId donutTypeId : String)
    (quantity : ℚ) (outlet : Outlet)
    (hfind : s.outlets outletId = some outlet)
    (hinv : quantity ≤ s.inventory outletId donutTypeId) :
    (sellToCustomer s outletId donutTypeId quantity).1 =
      Except.ok
        { saleId := "sale", outletId := outletId, donutTypeId := donutTypeId,
          quantity := quantity, costBasis := 2 * quantity,
          revenue := 2 * quantity * (1 + outlet.marginPercent / 100),
          profit := 2 * quantity * (1 + outlet.marginPercent / 100) - 2 * quantity,
          executedAt := 0 } ∧
    (sellToCustomer s outletId donutTypeId quantity).2.inventory outletId donutTypeId =
      s.inventory outletId donutTypeId - quantity ∧
    (sellToCustomer s outletId donutTypeId quantity).2.outlets outletId =
      some { outlet with
        balance := outlet.balance + 2 * quantity * (1 + outlet.marginPercent / 100) } := by
  have hnlt : ¬ s.inventory outletId donutTypeId < quantity := not_lt.mpr hinv
  refine ⟨?_, ?_, ?_⟩ <;>
    simp [sellToCustomer, getInventoryFromCache, removeInventory, updateCache, hfind, hnlt]

/-- Witness for C1: the spec's scenario 6 — margin 25%, ten in stock, four
bought: costBasis 8, revenue 10, profit 2, six remaining, balance +10. -/
theorem sellToCustomer_success_witness :
    (sellToCustomer stockedState "outlet-1" "glazed" 4).1 =
      Except.ok
        { saleId := "sale", outletId := "outlet-1", donutTypeId := "glazed",
          quantity := 4, costBasis := 2 * 4,
          revenue := 2 * 4 * (1 + demoOutlet.marginPercent / 100),
          profit := 2 * 4 * (1 + demoOutlet.marginPercent / 100) - 2 * 4,
          executedAt := 0 } ∧
    (sellToCustomer stockedState "outlet-1" "glazed" 4).2.inventory "outlet-1" "glazed" =
      stockedState.inventory "outlet-1" "glazed" - 4 ∧
    (sellToCustomer stockedState "outlet-1" "glazed" 4).2.outlets "outlet-1" =
      some { demoOutlet with
        balance := demoOutlet.balance + 2 * 4 * (1 + demoOutlet.marginPercent / 100) } :=
  sellToCustomer_success stockedState "outlet-1" "glazed" 4 demoOutlet
    (by simp [stockedState]) (by norm_num [stockedState])

/-- Claim C2: a customer sale whose requested quantity exceeds the available
inventory raises an error to the caller and leaves the state — inventory,
balances, sales stats — exactly as it was. -/
theorem sellToCustomer_insufficient (s : ExchangeState) (outletId donutTypeId : String)
    (quantity : ℚ) (outlet : Outlet)
    (hfind : s.outlets outletId = some outlet)
    (hlt : s.inventory outletId donutTypeId < quantity) :
    sellToCustomer s outletId donutTypeId quantity =
      (Except.error "Insufficient inventory", s) := by
  simp [sellToCustomer, getInventoryFromCache, hfind, hlt]

/-- Witness for C2: requesting five donuts from an empty inventory fails and
changes nothing. -/
theorem sellToCustomer_insufficient_witness :
    sellToCustomer demoState "outlet-1" "glazed" 5 =
      (Except.error "Insufficient inventory", demoState) :=
  sellToCustomer_insufficient demoState "outlet-1" "glazed" 5 demoOutlet
    (by simp [demoState]) (by norm_num [demoState])

/-- Claim C3 (divergence): `sellToCustomer` never checks `quantity > 0`.  On
an outlet with empty inventory, a sale of quantity `-3` is accepted
(`available < quantity` is `0 < -3`, false): the inventory cell rises to `3`,
and the balance falls by `7.5` (the negative revenue), and a sale of
quantity `0` is accepted too, incrementing the customer-sales counter — so a
non-positive quantity is neither rejected nor free of state changes. -/
theorem sellToCustomer_nonpositive_accepted :
    ((sellToCustomer demoState "outlet-1" "glazed" (-3)).1.isOk = true) ∧
    ((sellToCustomer demoState "outlet-1" "glazed" (-3)).2.inventory "outlet-1" "glazed" = 3) ∧
    ((sellToCustomer demoState "outlet-1" "glazed" (-3)).2.outlets "outlet-1" =
      some { demoOutlet with balance := 10000 - 15/2 }) ∧
    ((sellToCustomer demoState "outlet-1" "glazed" 0).1.isOk = true) ∧
    ((sellToCustomer demoState "outlet-1" "glazed" 0).2.stats "outlet-1" =
      { zeroStats with customerSalesCount := 1 }) := by
  refine ⟨?_, ?_, ?_, ?_, ?_⟩ <;>
    norm_num [sellToCustomer, demoState, demoOutlet, getInventoryFromCache, removeInventory,
      updateCache, zeroStats, Except.isOk, Except.toBool]

/-- Claim C4 (divergence): `createOrder` validates only that the outlet and
the donut type exist — it never reads `isOpen`.  A closed outlet's order is
accepted and persisted: no validation error, and the order list grows. -/
theorem createOrder_closed_outlet_accepted :
    ((createOrder closedBookState closedOutletRequest "order-1" 0).1.isOk = true) ∧
    ((createOrder closedBookState closedOutletRequest "order-1" 0).2.orders.length =
      closedBookState.orders.length + 1) ∧
    (closedBookState.outlets "closed-1" = some closedOutlet ∧ closedOutlet.isOpen = false) := by
  refine ⟨?_, ?_, rfl, rfl⟩ <;>
    norm_num [createOrder, closedBookState, closedOutletRequest, Except.isOk, Except.toBool]

unseal List.merge List.mergeSort in
/-- Counterexample to claim C5: the snapshot does not order bids by price.
With an earlier bid at price 10 and a later bid at price 5, the snapshot
lists the later, cheaper bid first — the first bid is not the
highest-priced one. -/
theorem getOrderBook_first_bid_not_highest :
    (getOrderBook "glazed" false (Except.ok []) (Except.ok [bidHigh, bidLow])).buyOrders =
      [bidLow, bidHigh] ∧
    bidLow.pricePerUnit < bidHigh.pricePerUnit := by
  decide

/-- Claim C5 as amended: both sides of every snapshot are sorted by
`createdAt` descending (newest first) — the display order the source
implements — not by price. -/
theorem getOrderBook_sorted_newest_first (donutTypeId : String) (includeAll : Bool)
    (sellResponse buyResponse : Except String (List OrderBookEntry)) :
    List.Sorted (fun a b : OrderBookEntry => b.createdAt ≤ a.createdAt)
      ((getOrderBook donutTypeId includeAll sellResponse buyResponse).buyOrders) ∧
    List.Sorted (fun a b : OrderBookEntry => b.createdAt ≤ a.createdAt)
      ((getOrderBook donutTypeId includeAll sellResponse buyResponse).sellOrders) := by
  cases sellResponse <;> cases buyResponse <;>
    refine ⟨?_, ?_⟩ <;>
      first
        | exact List.sorted_nil
        | exact sortByTimeDesc_sorted _

/-- Claim C6: with `includeTerminal = false` the snapshot holds exactly the
resident orders in status `ACTIVE` or `PARTIALLY_FILLED` on each side
(excluding `FILLED` and `CANCELLED`), and with `includeTerminal = true` it
holds every resident order regardless of status. -/
theorem getOrderBook_includeTerminal_filter (donutTypeId : String)
    (sells buys : List OrderBookEntry) (o : OrderBookEntry) :
    (o ∈ (getOrderBook donutTypeId false (Except.ok sells) (Except.ok buys)).buyOrders ↔
      o ∈ buys ∧ (o.status = OrderStatus.ACTIVE ∨ o.status = OrderStatus.PARTIALLY_FILLED)) ∧
    (o ∈ (getOrderBook donutTypeId false (Except.ok sells) (Except.ok buys)).sellOrders ↔
      o ∈ sells ∧ (o.status = OrderStatus.ACTIVE ∨ o.status = OrderStatus.PARTIALLY_FILLED)) ∧
    (o ∈ (getOrderBook donutTypeId true (Except.ok sells) (Except.ok buys)).buyOrders ↔
      o ∈ buys) ∧
    (o ∈ (getOrderBook donutTypeId true (Except.ok sells) (Except.ok buys)).sellOrders ↔
      o ∈ sells) := by
  refine ⟨?_, ?_, ?_, ?_⟩ <;>
    simp [getOrderBook, mem_sortByTimeDesc, List.mem_filter, isMatchable_iff]

/-- Claim C7: the leaderboard holds exactly the non-sentinel outlets' stats
rows, is sorted by `netProfit` descending with
`netProfit = balance - 10000`, and `getAllOutlets` holds exactly the outlets
other than `supplier-factory`. -/
theorem getLeaderboard_spec (outlets : List Outlet) (stats : String → OutletSalesStats)
    (entry : OutletStats) (o : Outlet) :
    (entry ∈ getLeaderboard outlets stats ↔
      ∃ r ∈ outlets, (r.outletId == "supplier-factory") = false ∧
        outletToStats stats r = entry) ∧
    List.Sorted (fun a b : OutletStats => b.netProfit ≤ a.netProfit)
      (getLeaderboard outlets stats) ∧
    (∀ r, (outletToStats stats r).netProfit = r.balance - 10000) ∧
    (o ∈ getAllOutlets outlets ↔
      o ∈ outlets ∧ (o.outletId == "supplier-factory") = false) := by
  refine ⟨?_, ?_, ?_, ?_⟩
  · rw [getLeaderboard, (List.mergeSort_perm _ _).mem_iff]
    simp only [List.mem_map, List.mem_filter, Bool.not_eq_eq_eq_not, Bool.not_true]
    constructor
    · rintro ⟨r, ⟨hr, hf⟩, he⟩
      exact ⟨r, hr, hf, he⟩
    · rintro ⟨r, hr, hf, he⟩
      exact ⟨r, ⟨hr, hf⟩, he⟩
  · have h := @List.sorted_mergeSort OutletStats
      (fun a b : OutletStats => decide (b.netProfit ≤ a.netProfit))
      (by intro a b c h1 h2; simp at h1 h2 ⊢; linarith)
      (by intro a b; simpa using le_total b.netProfit a.netProfit)
      ((outlets.filter (fun r => !(r.outletId == "supplier-factory"))).map (outletToStats stats))
    refine h.imp ?_
    intro a b hab
    simpa using hab
  · intro r
    rfl
  · simp [getAllOutlets, List.mem_filter]

/-- Claim C8: starting from any state satisfying the data-model constraints
(non-negative inventory cells, balances and margins), any sequence of
positive-quantity ledger operations — trade-event inventory credits,
`removeInventory`, `sellToCustomer` — keeps every inventory cell and every
outlet balance non-negative in every observed state (every prefix). -/
theorem ledger_nonneg_invariant (s : ExchangeState) (ops : List LedgerOp)
    (hs : validState s) (hpos : ∀ op ∈ ops, opQuantityPos op) (n : ℕ) :
    validState (applyOps s (ops.take n)) :=
  validState_applyOps s _ hs (fun op hop => hpos op (List.take_subset n ops hop))

/-- Witness for C8: the demo outlet runs a trade credit, a customer sale and
an inventory removal; the invariant holds at the end. -/
theorem ledger_nonneg_invariant_witness :
    validState (applyOps demoState (demoOps.take 3)) :=
  ledger_nonneg_invariant demoState demoOps demoState_valid
    (by intro op hop; fin_cases hop <;> norm_num [opQuantityPos]) 3

/-- Claim C9: `getOrderBook` never propagates a store-read failure: if either
side's read fails, the result is a snapshot with the requested product id and
both sides empty — the very same value a genuinely empty book produces. -/
theorem getOrderBook_failure_empty (donutTypeId : String) (includeAll : Bool) (e : String)
    (response : Except String (List OrderBookEntry)) :
    getOrderBook donutTypeId includeAll (Except.error e) response =
      { donutTypeId := donutTypeId, buyOrders := [], sellOrders := [] } ∧
    getOrderBook donutTypeId includeAll response (Except.error e) =
      { donutTypeId := donutTypeId, buyOrders := [], sellOrders := [] } ∧
    getOrderBook donutTypeId includeAll (Except.ok []) (Except.ok []) =
      { donutTypeId := donutTypeId, buyOrders := [], sellOrders := [] } := by
  cases response <;> simp [getOrderBook, sortByTimeDesc]

/-- Counterexample to claim C10: `create` stores margin 25 in place of a
supplied 0, but it returns the caller's input object unchanged — so the
repository does return an `Outlet` whose `marginPercent` is `0`. -/
theorem create_echoes_zero_margin :
    ((OutletRepository.create zeroMarginInput 0).2.marginPercent = 0) ∧
    ((OutletRepository.create zeroMarginInput 0).1.marginPercent = 25) := by
  constructor <;> norm_num [OutletRepository.create, zeroMarginInput, jsNumOr]

/-- Claim C10 as amended: `create` stores 25 in place of a supplied margin of
0 but echoes the input's margin back in its return value; `findById` and
`findAll` replace a stored (or absent) margin of 0 with 25 on every read, so
every outlet returned by `findById` or `findAll` has a non-zero margin. -/
theorem outletRepository_margin_defaults (input : OutletInput) (now : Int)
    (outletId : String) (doc : OutletDoc) (docs : List OutletDoc) :
    ((OutletRepository.create input now).1.marginPercent =
      if input.marginPercent = 0 then 25 else input.marginPercent) ∧
    ((OutletRepository.create input now).2.marginPercent = input.marginPercent) ∧
    (∃ outlet, OutletRepository.findById outletId (some doc) = some outlet ∧
      (outlet.marginPercent == 0) = false) ∧
    (OutletRepository.findById outletId none = none) ∧
    ((OutletRepository.findAll (some docs)).all
      (fun outlet => !(outlet.marginPercent == 0)) = true) := by
  refine ⟨rfl, rfl, ⟨OutletRepository.parseDoc outletId doc, rfl,
    parseDoc_margin_ne_zero outletId doc⟩, rfl, ?_⟩
  simp only [OutletRepository.findAll, List.all_eq_true, List.mem_map]
  rintro outlet ⟨d, hd, rfl⟩
  simp [parseDoc_margin_ne_zero]

end DonutExchange
